import Mathlib

/-!
Verification of the error-handling and retry logic of
`src/examples/python/basic_usage.py` (Snap2Pass API client example).

The embedding models:
* JSON values (`JValue`) as produced by `response.json()`; Python JSON
  numbers are modelled as integers (no claim involves floats).
* Python `dict.get(key, default)` including the `AttributeError` raised
  when `.get` is called on a non-dict value (`dictGet`).
* Python `str()` rendering of values interpolated into f-strings
  (`pyStr` / `pyRepr`; string escaping inside container reprs is not
  modelled, and no claim renders a container).
* `Snap2PassAPI._handle_response` (`handle_response`): raised exceptions
  become `Except.error msg` carrying the exception message string,
  exactly as the retry logic observes them via `str(e)`.
* `process_with_retry`: the outcome of each call to
  `api.process_photo` on attempt `i` is supplied as `call i`
  (the photo upload itself is external I/O); the loop
  `for attempt in range(max_retries)` is run over the explicit index
  list `List.range`, recording the number of attempts made and every
  `time.sleep` duration in a `RetryTrace`.
-/

/-- A JSON value, as returned by `response.json()` in the Python source.
Objects keep their fields as an association list with distinct keys. -/
inductive JValue where
  | jnull : JValue
  | jbool : Bool → JValue
  | jnum  : Int → JValue
  | jstr  : String → JValue
  | jarr  : List JValue → JValue
  | jobj  : List (String × JValue) → JValue

/-- The Python type name of a JSON value, as it appears in
`AttributeError` messages such as
`'list' object has no attribute 'get'`. -/
def typeName : JValue → String
  | .jnull   => "NoneType"
  | .jbool _ => "bool"
  | .jnum _  => "int"
  | .jstr _  => "str"
  | .jarr _  => "list"
  | .jobj _  => "dict"

mutual

/-- Python `repr()` of a JSON value (quote escaping inside strings is
not modelled; no claim exercises it). -/
def pyRepr : JValue → String
  | .jnull       => "None"
  | .jbool true  => "True"
  | .jbool false => "False"
  | .jnum n      => toString n
  | .jstr s      => "\x27" ++ s ++ "\x27"
  | .jarr xs     => "[" ++ pyReprList xs ++ "]"
  | .jobj fs     => "\x7b" ++ pyReprFields fs ++ "\x7d"

/-- Comma-separated `repr`s of list elements. -/
def pyReprList : List JValue → String
  | []      => ""
  | [x]     => pyRepr x
  | x :: xs => pyRepr x ++ ", " ++ pyReprList xs

/-- Comma-separated `repr`s of dict entries. -/
def pyReprFields : List (String × JValue) → String
  | []           => ""
  | [(k, v)]     => "\x27" ++ k ++ "\x27: " ++ pyRepr v
  | (k, v) :: fs => "\x27" ++ k ++ "\x27: " ++ pyRepr v ++ ", " ++ pyReprFields fs

end

/-- Python `str()` of a JSON value, as interpolated into f-strings. -/
def pyStr : JValue → String
  | .jnull       => "None"
  | .jbool true  => "True"
  | .jbool false => "False"
  | .jnum n      => toString n
  | .jstr s      => s
  | .jarr xs     => pyRepr (.jarr xs)
  | .jobj fs     => pyRepr (.jobj fs)

/-- Look a key up in a JSON object's field list. -/
def lookupField (key : String) : List (String × JValue) → Option JValue
  | []             => none
  | (k, v) :: rest => if k == key then some v else lookupField key rest

/-- Python `d.get(key, default)`.  On a dict it returns the stored value
(or the default when the key is absent); on any other value Python
raises `AttributeError: '<type>' object has no attribute 'get'`,
modelled as `Except.error` with that message. -/
def dictGet (v : JValue) (key : String) (dflt : JValue) : Except String JValue :=
  match v with
  | .jobj fs => .ok ((lookupField key fs).getD dflt)
  | _ => .error ("\x27" ++ typeName v ++ "\x27 object has no attribute \x27get\x27")

/-- An HTTP response as seen by `_handle_response`:
`status` is `response.status_code`; `body = some v` means
`response.json()` parses to `v`, `body = none` means it raises
`json.JSONDecodeError`; `text` is `response.text` (used only in the
invalid-JSON message). -/
structure HttpResponse where
  status : Nat
  body   : Option JValue
  text   : String

/-- Translation of `Snap2PassAPI._handle_response`, clause by clause from the
source.  Every `raise Exception(msg)` becomes `Except.error msg`; each
`.get` is sequenced in the source's evaluation order so that an
`AttributeError` from a non-dict receiver propagates from the right
place. -/
def handle_response (resp : HttpResponse) : Except String JValue :=
  match resp.body with
  | none => .error ("Invalid JSON response: " ++ resp.text)
  | some data =>
    if resp.status == 200 then
      .ok data
    else if resp.status == 401 then
      match dictGet data "error" (.jobj []) with
      | .error ex => .error ex
      | .ok err =>
        match dictGet err "message" (.jstr "Invalid API key") with
        | .error ex => .error ex
        | .ok msg => .error ("Authentication Error: " ++ pyStr msg)
    else if resp.status == 402 then
      match dictGet data "error" (.jobj []) with
      | .error ex => .error ex
      | .ok err =>
        match dictGet err "details" (.jobj []) with
        | .error ex => .error ex
        | .ok details =>
          match dictGet details "current_credits" (.jnum 0) with
          | .error ex => .error ex
          | .ok credits =>
            match dictGet err "message" .jnull with
            | .error ex => .error ex
            | .ok msg =>
              .error ("Insufficient Credits: " ++ pyStr msg ++
                " (Credits: " ++ pyStr credits ++ ")")
    else if resp.status == 400 then
      match dictGet data "error" (.jobj []) with
      | .error ex => .error ex
      | .ok err =>
        match dictGet err "code" (.jstr "UNKNOWN") with
        | .error ex => .error ex
        | .ok code =>
          match dictGet err "message" (.jstr "Unknown error") with
          | .error ex => .error ex
          | .ok msg =>
            .error ("Validation Error [" ++ pyStr code ++ "]: " ++ pyStr msg)
    else
      match dictGet data "error" (.jobj []) with
      | .error ex => .error ex
      | .ok err =>
        match dictGet err "message" (.jstr "Unknown error") with
        | .error ex => .error ex
        | .ok msg =>
          .error ("API Error (" ++ toString resp.status ++ "): " ++ pyStr msg)

/-- Test `isPre p s` : the char list `p` is an initial segment of `s`. -/
def isPre : List Char → List Char → Bool
  | [], _ => true
  | _ :: _, [] => false
  | a :: as, b :: bs => a == b && isPre as bs

/-- Test `hasSub p s` : the char list `p` occurs contiguously inside `s`. -/
def hasSub (p : List Char) : List Char → Bool
  | [] => isPre p []
  | c :: cs => isPre p (c :: cs) || hasSub p cs

/-- Python's `sub in s` substring test on strings. -/
def pyIn (sub s : String) : Bool :=
  hasSub sub.data s.data

/-- Test `strIsPre p s` : the string `p` is an initial segment of `s`. -/
def strIsPre (p s : String) : Bool :=
  isPre p.data s.data

/-- The non-retryable test of `process_with_retry`:
`any(x in error_msg for x in ['Authentication Error', 'Validation Error',
'Insufficient Credits'])`. -/
def nonRetryable (msg : String) : Bool :=
  pyIn "Authentication Error" msg || pyIn "Validation Error" msg ||
    pyIn "Insufficient Credits" msg

/-- Observable trace of one `process_with_retry` invocation:
how many times `api.process_photo` was called, the successive
`time.sleep` durations, and the returned value or raised error. -/
structure RetryTrace where
  attemptsMade : Nat
  sleeps : List Nat
  result : Except String JValue

/-- The body of `process_with_retry`, run over the list of remaining
loop indices (`for attempt in range(max_retries)`).  `call i` is the
outcome of `api.process_photo` on attempt `i`.  An empty index list
corresponds to falling off the end of the loop, reaching
`raise Exception("Max retries exceeded")`. -/
def retryList (call : Nat → Except String JValue) (max_retries : Nat) :
    List Nat → RetryTrace
  | [] => ⟨0, [], .error "Max retries exceeded"⟩
  | attempt :: rest =>
    match call attempt with
    | .ok v => ⟨1, [], .ok v⟩
    | .error e =>
      if nonRetryable e then
        ⟨1, [], .error e⟩
      else if attempt < max_retries - 1 then
        let t := retryList call max_retries rest
        ⟨t.attemptsMade + 1, 2 ^ attempt :: t.sleeps, t.result⟩
      else
        ⟨1, [], .error e⟩

/-- Translation of `process_with_retry` from the source.  `max_retries` is a Python
int, so it may be non-positive, in which case `range(max_retries)` is
empty (`Int.toNat` of a non-positive value is `0`). -/
def process_with_retry (call : Nat → Except String JValue)
    (max_retries : Int) : RetryTrace :=
  retryList call max_retries.toNat (List.range max_retries.toNat)

/-- A 401 response with body `{"error":{"message":"bad token"}}`. -/
def resp401 : HttpResponse :=
  ⟨401, some (.jobj [("error", .jobj [("message", .jstr "bad token")])]), ""⟩

/-- A 402 response with body
`{"error":{"message":"low credit","details":{"current_credits":2}}}`. -/
def resp402 : HttpResponse :=
  ⟨402, some (.jobj [("error", .jobj [("message", .jstr "low credit"),
    ("details", .jobj [("current_credits", .jnum 2)])])]), ""⟩

/-- A 500 response with an empty JSON object body. -/
def resp500 : HttpResponse := ⟨500, some (.jobj []), ""⟩

/-- A 200 response with a valid validation block. -/
def resp200ok : HttpResponse :=
  ⟨200, some (.jobj [("request_id", .jstr "req-1"),
    ("validation", .jobj [("score", .jnum 95), ("passed", .jbool true),
      ("warnings", .jarr []), ("errors", .jarr [])])]), ""⟩

/-- The parsed body of `resp200ok`. -/
def body200ok : JValue :=
  .jobj [("request_id", .jstr "req-1"),
    ("validation", .jobj [("score", .jnum 95), ("passed", .jbool true),
      ("warnings", .jarr []), ("errors", .jarr [])])]

/-- Attempt outcomes of the spec scenario: three consecutive 500
responses, then a 200 with a valid validation block. -/
def scenario500Call : Nat → Except String JValue := fun i =>
  if i < 3 then handle_response resp500 else handle_response resp200ok

/-- Attempt outcomes with two retryable server errors, then success. -/
def call4 : Nat → Except String JValue := fun i =>
  if i < 2 then .error "API Error (500): transient" else .ok (.jstr "done")

/-- Attempt outcomes that always succeed. -/
def callOk : Nat → Except String JValue := fun _ => .ok .jnull

/-! ## Helper lemmas -/

theorem isPre_append_left : ∀ (a b s : List Char),
    isPre (a ++ b) s = true → isPre a s = true := by
  intro a
  induction a with
  | nil => intro b s _; rfl
  | cons x xs ih =>
    intro b s h
    cases s with
    | nil => simp [isPre] at h
    | cons y ys =>
      simp only [List.cons_append, isPre, Bool.and_eq_true] at h ⊢
      exact ⟨h.1, ih b ys h.2⟩

theorem hasSub_of_isPre (p s : List Char) (h : isPre p s = true) :
    hasSub p s = true := by
  cases s with
  | nil => simpa [hasSub] using h
  | cons c cs => simp [hasSub, h]

theorem map_pow_shift (a s : Nat) :
    (2 : Nat) ^ a :: (List.range s).map (fun j => 2 ^ (a + 1 + j)) =
      (List.range (s + 1)).map (fun j => 2 ^ (a + j)) := by
  rw [List.range_succ_eq_map, List.map_cons, List.map_map]
  refine congrArg₂ List.cons rfl ?_
  refine List.map_congr_left ?_
  intro x _
  show 2 ^ (a + 1 + x) = 2 ^ (a + Nat.succ x)
  congr 1
  omega

theorem retryList_cons_pos (call : Nat → Except String JValue) (m a : Nat)
    (l : List Nat) : 1 ≤ (retryList call m (a :: l)).attemptsMade := by
  simp only [retryList]
  split
  · simp
  · split
    · simp
    · split
      · simp
      · simp

/-- The sleeps recorded from start index `a` are exactly
`2 ^ (a + j)` for `j` below the number of further attempts. -/
theorem retryList_sleeps_range (call : Nat → Except String JValue) (m : Nat) :
    ∀ (k a : Nat), a + k = m →
      (retryList call m (List.range' a k)).sleeps =
        (List.range ((retryList call m (List.range' a k)).attemptsMade - 1)).map
          (fun j => 2 ^ (a + j)) := by
  intro k
  induction k with
  | zero => intro a _; simp [List.range', retryList]
  | succ k ih =>
    intro a hak
    rw [List.range'_succ]
    simp only [retryList]
    cases hc : call a with
    | ok v => simp
    | error e =>
      by_cases h1 : nonRetryable e = true
      · simp [h1]
      · by_cases h2 : a < m - 1
        · have hk1 : 1 ≤ k := by omega
          obtain ⟨k2, rfl⟩ : ∃ k2, k = k2 + 1 := ⟨k - 1, by omega⟩
          simp only [Bool.not_eq_true] at h1
          simp only [h1, Bool.false_eq_true, if_false, if_pos h2]
          have ih2 := ih (a + 1) (by omega)
          have hpos : 1 ≤ (retryList call m (List.range' (a + 1) (k2 + 1))).attemptsMade := by
            rw [List.range'_succ]
            exact retryList_cons_pos call m (a + 1) _
          obtain ⟨s, hs⟩ : ∃ s,
              (retryList call m (List.range' (a + 1) (k2 + 1))).attemptsMade = s + 1 :=
            ⟨(retryList call m (List.range' (a + 1) (k2 + 1))).attemptsMade - 1,
              by omega⟩
          rw [ih2, hs]
          simp only [Nat.add_sub_cancel]
          exact map_pow_shift a s
        · simp only [Bool.not_eq_true] at h1
          simp [h1, h2]

/-- Exhaustion: when every attempt in range fails with a retryable
error, the loop runs to the last index and re-raises that last error. -/
theorem retryList_exhaust (call : Nat → Except String JValue) (e : Nat → String)
    (m : Nat)
    (hfail : ∀ i, i < m → call i = .error (e i) ∧ nonRetryable (e i) = false) :
    ∀ (k a : Nat), 1 ≤ k → a + k = m →
      retryList call m (List.range' a k) =
        ⟨k, (List.range (k - 1)).map (fun j => 2 ^ (a + j)), .error (e (m - 1))⟩ := by
  intro k
  induction k with
  | zero => intro a h _; omega
  | succ k ih =>
    intro a _ hak
    rw [List.range'_succ]
    have ha : a < m := by omega
    have hca := (hfail a ha).1
    have hna := (hfail a ha).2
    simp only [retryList, hca, hna, Bool.false_eq_true, if_false]
    cases Nat.eq_zero_or_pos k with
    | inl hk0 =>
      subst hk0
      have hcond : ¬ a < m - 1 := by omega
      have ham : a = m - 1 := by omega
      simp [hcond, ham]
    | inr hk1 =>
      have hcond : a < m - 1 := by omega
      rw [if_pos hcond]
      have ih2 := ih (a + 1) hk1 (by omega)
      rw [ih2]
      obtain ⟨s, rfl⟩ : ∃ s, k = s + 1 := ⟨k - 1, by omega⟩
      simp only [Nat.add_sub_cancel]
      rw [map_pow_shift]

/-- Success after a prefix of retryable failures: the loop returns the
first successful value, having made one attempt per index up to it. -/
theorem retryList_success (call : Nat → Except String JValue) (e : Nat → String)
    (v : JValue) (m k : Nat) (hk : 1 ≤ k) (hkm : k ≤ m)
    (hfail : ∀ i, i + 1 < k → call i = .error (e i) ∧ nonRetryable (e i) = false)
    (hok : call (k - 1) = .ok v) :
    ∀ (d a r : Nat), a + d = k - 1 → a + r = m →
      retryList call m (List.range' a r) =
        ⟨d + 1, (List.range d).map (fun j => 2 ^ (a + j)), .ok v⟩ := by
  intro d
  induction d with
  | zero =>
    intro a r had har
    have ha : a = k - 1 := by omega
    obtain ⟨r2, rfl⟩ : ∃ r2, r = r2 + 1 := ⟨r - 1, by omega⟩
    subst ha
    rw [List.range'_succ]
    simp [retryList, hok]
  | succ d ih =>
    intro a r had har
    have h1 : a + 1 < k := by omega
    have hca := (hfail a h1).1
    have hna := (hfail a h1).2
    obtain ⟨r2, rfl⟩ : ∃ r2, r = r2 + 1 := ⟨r - 1, by omega⟩
    rw [List.range'_succ]
    simp only [retryList, hca, hna, Bool.false_eq_true, if_false]
    have hcond : a < m - 1 := by omega
    rw [if_pos hcond]
    have ih2 := ih (a + 1) r2 (by omega) (by omega)
    rw [ih2, map_pow_shift]

/-- Whatever the outcomes, when the index list is a nonempty suffix of
the loop range the returned result is the outcome of one of the
attempted calls (the trailing `Max retries exceeded` raise is never
reached). -/
theorem retryList_result_attempt (call : Nat → Except String JValue) (m : Nat) :
    ∀ (r a : Nat), 1 ≤ r → a + r = m →
      ∃ i, a ≤ i ∧ i < m ∧ (retryList call m (List.range' a r)).result = call i := by
  intro r
  induction r with
  | zero => intro a h; omega
  | succ r ih =>
    intro a _ har
    rw [List.range'_succ]
    simp only [retryList]
    cases hc : call a with
    | ok v => exact ⟨a, Nat.le_refl a, by omega, by simp [hc]⟩
    | error e =>
      by_cases h1 : nonRetryable e = true
      · exact ⟨a, Nat.le_refl a, by omega, by simp [hc, h1]⟩
      · by_cases h2 : a < m - 1
        · have hr1 : 1 ≤ r := by omega
          obtain ⟨i, hi1, hi2, hi3⟩ := ih (a + 1) hr1 (by omega)
          refine ⟨i, by omega, hi2, ?_⟩
          simp only [Bool.not_eq_true] at h1
          simp only [hc, h1, Bool.false_eq_true, if_false, if_pos h2]
          exact hi3
        · exact ⟨a, Nat.le_refl a, by omega, by
            simp only [Bool.not_eq_true] at h1
            simp [hc, h1, h2]⟩

/-- An error message with one of the three non-retryable shapes produced
by `handle_response` (401, 400, 402) matches the corresponding
substring test in `process_with_retry`. -/
theorem nonRetryable_of_kind (e : String)
    (h : strIsPre "Authentication Error: " e = true ∨
         strIsPre "Validation Error [" e = true ∨
         strIsPre "Insufficient Credits: " e = true) :
    nonRetryable e = true := by
  rcases h with h | h | h
  · have h2 : isPre ("Authentication Error".data ++ ": ".data) e.data = true := h
    have h3 := hasSub_of_isPre _ _ (isPre_append_left _ _ _ h2)
    simp [nonRetryable, pyIn, h3]
  · have h2 : isPre ("Validation Error".data ++ " [".data) e.data = true := h
    have h3 := hasSub_of_isPre _ _ (isPre_append_left _ _ _ h2)
    simp [nonRetryable, pyIn, h3]
  · have h2 : isPre ("Insufficient Credits".data ++ ": ".data) e.data = true := h
    have h3 := hasSub_of_isPre _ _ (isPre_append_left _ _ _ h2)
    simp [nonRetryable, pyIn, h3]

/-! ## Claim theorems -/

/-- Claim C1, amended: when all of the first `maxAttempts` attempts fail
with retryable errors, `process_with_retry` makes exactly `maxAttempts`
attempts (sleeping between consecutive attempts only) and then fails by
re-raising the last underlying error unchanged; the code has no
`RetryExhausted` wrapper, and its only exhaustion-specific error,
`Max retries exceeded`, is not produced in this case. -/
theorem c1_exhaustion_reraises_last (call : Nat → Except String JValue)
    (e : Nat → String) (n : Nat) (hn : 1 ≤ n)
    (hfail : ∀ i, i < n → call i = .error (e i) ∧ nonRetryable (e i) = false) :
    process_with_retry call (n : Int) =
      ⟨n, (List.range (n - 1)).map (fun j => 2 ^ j), .error (e (n - 1))⟩ := by
  have h := retryList_exhaust call e n hfail n 0 hn (by omega)
  unfold process_with_retry
  rw [Int.toNat_ofNat, List.range_eq_range', h]
  simp

/-- Counterexample to claim C1 as stated: with `maxAttempts = 3` and
three consecutive 500 responses followed by a would-be successful 200,
exactly 3 attempts are made (the 4th success is never reached), but the
resulting failure is the bare last underlying error
`API Error (500): Unknown error` — exactly the error `handle_response`
produces for the 500 response — with no `RetryExhausted` wrapping and no
exhaustion marker in its message. -/
theorem c1_counterexample :
    process_with_retry scenario500Call 3 =
      ⟨3, [1, 2], .error "API Error (500): Unknown error"⟩ ∧
    handle_response resp500 = .error "API Error (500): Unknown error" ∧
    handle_response resp200ok = .ok body200ok ∧
    pyIn "Max retries exceeded" "API Error (500): Unknown error" = false :=
  ⟨rfl, rfl, rfl, rfl⟩

/-- Witness for C1 on the spec scenario: three 500 responses then a 200,
`maxAttempts = 3`. -/
theorem c1_witness :
    process_with_retry scenario500Call 3 =
      ⟨3, (List.range 2).map (fun j => 2 ^ j),
        .error "API Error (500): Unknown error"⟩ := by
  have hf : ∀ i, i < 3 →
      scenario500Call i = .error "API Error (500): Unknown error" ∧
      nonRetryable "API Error (500): Unknown error" = false := by
    intro i hi
    match i, hi with
    | 0, _ => exact ⟨rfl, rfl⟩
    | 1, _ => exact ⟨rfl, rfl⟩
    | 2, _ => exact ⟨rfl, rfl⟩
  exact c1_exhaustion_reraises_last scenario500Call
    (fun _ => "API Error (500): Unknown error") 3 (by decide) hf

/-- Claim C2: when the first attempt fails with a non-retryable error
kind (the AuthError, ValidationError or QuotaError message shapes),
`process_with_retry` makes exactly one attempt, performs no backoff
wait, and propagates the error unchanged. -/
theorem c2_nonretryable_first_attempt (call : Nat → Except String JValue)
    (e : String) (m : Int) (hm : 1 ≤ m)
    (h0 : call 0 = .error e)
    (hkind : strIsPre "Authentication Error: " e = true ∨
             strIsPre "Validation Error [" e = true ∨
             strIsPre "Insufficient Credits: " e = true) :
    process_with_retry call m = ⟨1, [], .error e⟩ := by
  have hnr := nonRetryable_of_kind e hkind
  obtain ⟨j, hj⟩ : ∃ j, m.toNat = j + 1 := ⟨m.toNat - 1, by omega⟩
  unfold process_with_retry
  rw [hj, List.range_eq_range', List.range'_succ]
  simp [retryList, h0, hnr]

/-- Witness for C2: a 401 response with body
`{"error":{"message":"bad token"}}` propagates immediately. -/
theorem c2_witness :
    process_with_retry (fun _ => handle_response resp401) 3 =
      ⟨1, [], .error "Authentication Error: bad token"⟩ :=
  c2_nonretryable_first_attempt _ "Authentication Error: bad token" 3
    (by decide) rfl (Or.inl rfl)

/-- Claim C3: the backoff delay recorded before attempt `i` (0-indexed,
`i ≥ 1`) is `2 ^ (i - 1)`: the list of sleeps is exactly
`[2 ^ 0, …, 2 ^ (attemptsMade - 2)]`, so there is no delay before the
first attempt and no wait after the final attempt. -/
theorem c3_backoff_schedule (call : Nat → Except String JValue) (m : Int) :
    (process_with_retry call m).sleeps =
      (List.range ((process_with_retry call m).attemptsMade - 1)).map
        (fun j => 2 ^ j) := by
  have h := retryList_sleeps_range call m.toNat m.toNat 0 (by omega)
  unfold process_with_retry
  rw [List.range_eq_range', h]
  simp

/-- Claim C4: if the first `k - 1` attempts fail with retryable errors
and attempt `k` (1-indexed, `k ≤ maxAttempts`) succeeds,
`process_with_retry` makes exactly `k` attempts and returns the
successful response of attempt `k`. -/
theorem c4_success_at_attempt_k (call : Nat → Except String JValue)
    (e : Nat → String) (v : JValue) (k : Nat) (m : Int)
    (hk : 1 ≤ k) (hkm : (k : Int) ≤ m)
    (hfail : ∀ i, i + 1 < k → call i = .error (e i) ∧ nonRetryable (e i) = false)
    (hok : call (k - 1) = .ok v) :
    process_with_retry call m =
      ⟨k, (List.range (k - 1)).map (fun j => 2 ^ j), .ok v⟩ := by
  have hkm2 : k ≤ m.toNat := by omega
  have h := retryList_success call e v m.toNat k hk hkm2 hfail hok
    (k - 1) 0 m.toNat (by omega) (by omega)
  unfold process_with_retry
  rw [List.range_eq_range', h]
  have hk2 : k - 1 + 1 = k := by omega
  rw [hk2]
  simp

/-- Witness for C4: two retryable 500-style failures, then success on
the third of three attempts. -/
theorem c4_witness :
    process_with_retry call4 3 = ⟨3, [1, 2], .ok (.jstr "done")⟩ := by
  have hf : ∀ i, i + 1 < 3 →
      call4 i = .error "API Error (500): transient" ∧
      nonRetryable "API Error (500): transient" = false := by
    intro i hi
    match i, hi with
    | 0, _ => exact ⟨rfl, rfl⟩
    | 1, _ => exact ⟨rfl, rfl⟩
  exact c4_success_at_attempt_k call4 (fun _ => "API Error (500): transient")
    (.jstr "done") 3 3 (by decide) (by decide) hf rfl

/-- Claim C5, amended: a response with status 200 and any JSON-parseable
body returns the parsed response data unchanged; for the error statuses,
provided the body is a JSON object whose `error` member is an object
(and, for 402 only, whose `details` member is an object) where the
handler accesses it, 401 yields the AuthError message, 402 the
QuotaError message, 400 the ValidationError message carrying the
server-provided code and message, and every other status different from
200 — including 2xx statuses other than 200, which the code does not
treat as success — yields the ServerError message.  (Each deviation from
the original claim is forced by the counterexample: `.get` raises
`AttributeError` on non-object receivers, and the code's success test is
`status_code == 200`, so a 201 falls into the ServerError branch.) -/
theorem c5_status_mapping (status : Nat) (t : String) :
    (∀ fs es, (lookupField "error" fs).getD (.jobj []) = .jobj es →
      status = 401 → handle_response ⟨status, some (.jobj fs), t⟩ =
      .error ("Authentication Error: " ++
        pyStr ((lookupField "message" es).getD (.jstr "Invalid API key")))) ∧
    (∀ fs es ds, (lookupField "error" fs).getD (.jobj []) = .jobj es →
      (lookupField "details" es).getD (.jobj []) = .jobj ds →
      status = 402 → handle_response ⟨status, some (.jobj fs), t⟩ =
      .error ("Insufficient Credits: " ++
        pyStr ((lookupField "message" es).getD .jnull) ++ " (Credits: " ++
        pyStr ((lookupField "current_credits" ds).getD (.jnum 0)) ++ ")")) ∧
    (∀ fs es, (lookupField "error" fs).getD (.jobj []) = .jobj es →
      status = 400 → handle_response ⟨status, some (.jobj fs), t⟩ =
      .error ("Validation Error [" ++
        pyStr ((lookupField "code" es).getD (.jstr "UNKNOWN")) ++ "]: " ++
        pyStr ((lookupField "message" es).getD (.jstr "Unknown error")))) ∧
    (∀ fs es, (lookupField "error" fs).getD (.jobj []) = .jobj es →
      status ≠ 200 → status ≠ 401 → status ≠ 402 → status ≠ 400 →
      handle_response ⟨status, some (.jobj fs), t⟩ =
      .error ("API Error (" ++ toString status ++ "): " ++
        pyStr ((lookupField "message" es).getD (.jstr "Unknown error")))) ∧
    (∀ v : JValue, status = 200 →
      handle_response ⟨status, some v, t⟩ = .ok v) := by
  refine ⟨?_, ?_, ?_, ?_, ?_⟩
  · rintro fs es he rfl
    simp only [handle_response, dictGet]
    rw [he]
    simp [dictGet]
  · rintro fs es ds he hd rfl
    simp only [handle_response, dictGet]
    rw [he]
    simp only [dictGet]
    rw [hd]
    simp [dictGet]
  · rintro fs es he rfl
    simp only [handle_response, dictGet]
    rw [he]
    simp [dictGet]
  · rintro fs es he h200 h401 h402 h400
    have e200 : (status == 200) = false := beq_eq_false_iff_ne.mpr h200
    have e401 : (status == 401) = false := beq_eq_false_iff_ne.mpr h401
    have e402 : (status == 402) = false := beq_eq_false_iff_ne.mpr h402
    have e400 : (status == 400) = false := beq_eq_false_iff_ne.mpr h400
    simp only [handle_response, e200, e401, e402, e400, Bool.false_eq_true,
      if_false, dictGet]
    rw [he]
  · rintro v rfl
    simp [handle_response]

/-- Counterexample to claim C5 as stated, at two concrete inputs.
First, the body `[]` is JSON parseable, yet a 401 response carrying it
makes `data.get` raise `AttributeError`, so the result is not an
AuthError (nor any of the claimed categories).  Second, 201 is a
successful (2xx) status and the body is a parseable object, yet the
code's `status_code == 200` test sends it to the ServerError branch
instead of returning the parsed data, refuting both the non-2xx
restriction on ServerError and the successful-status-returns-data
clause. -/
theorem c5_counterexample :
    handle_response ⟨401, some (.jarr []), "[]"⟩ =
      .error "\x27list\x27 object has no attribute \x27get\x27" ∧
    strIsPre "Authentication Error"
      "\x27list\x27 object has no attribute \x27get\x27" = false ∧
    handle_response ⟨201, some (.jobj []), ""⟩ =
      .error "API Error (201): Unknown error" :=
  ⟨rfl, rfl, rfl⟩

/-- Witness for C5: a 503 response with an object body yields the
ServerError message, and a 200 response returns its parseable body — an
array here — unchanged, with no shape requirement. -/
theorem c5_witness :
    handle_response
      ⟨503, some (.jobj [("error", .jobj [("message", .jstr "boom")])]), ""⟩ =
      .error "API Error (503): boom" ∧
    handle_response ⟨200, some (.jarr [.jnum 1]), ""⟩ = .ok (.jarr [.jnum 1]) :=
  ⟨(c5_status_mapping 503 "").2.2.2.1 [("error", .jobj [("message", .jstr "boom")])]
      [("message", .jstr "boom")] rfl (by decide) (by decide) (by decide) (by decide),
    (c5_status_mapping 200 "").2.2.2.2 (.jarr [.jnum 1]) rfl⟩

/-- Claim C6: a 402 response with body
`{"error":{"message":"low credit","details":{"current_credits":2}}}`
fails with the QuotaError message carrying the remaining-quota value 2
and the server message, and `process_with_retry` propagates it after a
single attempt with no retry. -/
theorem c6_quota_402_no_retry :
    handle_response resp402 =
      .error "Insufficient Credits: low credit (Credits: 2)" ∧
    process_with_retry (fun _ => handle_response resp402) 3 =
      ⟨1, [], .error "Insufficient Credits: low credit (Credits: 2)"⟩ :=
  ⟨rfl, rfl⟩

/-- Claim C7: a 200 response whose body is not parseable as JSON fails
with the ProtocolError message and is never returned as a success. -/
theorem c7_invalid_json_on_200 (t : String) :
    handle_response ⟨200, none, t⟩ = .error ("Invalid JSON response: " ++ t) :=
  rfl

/-- Claim C8: `_handle_response` attempts JSON parsing before inspecting
the status code, so an unparseable body yields the ProtocolError failure
for every status; in particular a 401 with a non-JSON body yields a
message that is not an AuthError message. -/
theorem c8_parse_precedes_status :
    (∀ (status : Nat) (t : String),
      handle_response ⟨status, none, t⟩ =
        .error ("Invalid JSON response: " ++ t)) ∧
    (∀ t : String,
      strIsPre "Authentication Error" ("Invalid JSON response: " ++ t) = false) :=
  ⟨fun _ _ => rfl, fun _ => rfl⟩

/-- Claim C9, amended: a ProtocolError (invalid-JSON) failure is
classified as retryable and absorbed into the backoff/retry loop
provided its full message (which embeds the raw response text) matches
none of the non-retryable substrings; here a first-attempt ProtocolError
is retried after a `2 ^ 0` wait and the second attempt's success is
returned.  (The proviso is forced: the raw text is interpolated into the
message, see the counterexample.) -/
theorem c9_protocol_error_retryable (t : String) (v : JValue)
    (h : nonRetryable ("Invalid JSON response: " ++ t) = false) :
    process_with_retry
      (fun i => if i = 0 then handle_response ⟨200, none, t⟩ else .ok v) 3 =
      ⟨2, [1], .ok v⟩ := by
  show retryList (fun i => if i = 0 then handle_response ⟨200, none, t⟩ else .ok v)
    3 [0, 1, 2] = ⟨2, [1], .ok v⟩
  simp [retryList, handle_response, h]

/-- Counterexample to claim C9 as stated: when the unparseable body text
itself contains `Authentication Error`, the ProtocolError message
matches a non-retryable substring and `process_with_retry` propagates it
on the first occurrence instead of retrying. -/
theorem c9_counterexample :
    handle_response ⟨200, none, "Authentication Error"⟩ =
      .error "Invalid JSON response: Authentication Error" ∧
    nonRetryable "Invalid JSON response: Authentication Error" = true ∧
    process_with_retry
      (fun _ => handle_response ⟨200, none, "Authentication Error"⟩) 3 =
      ⟨1, [], .error "Invalid JSON response: Authentication Error"⟩ :=
  ⟨rfl, rfl, rfl⟩

/-- Witness for C9: an invalid-JSON failure with innocuous text is
retried and the second attempt's success is returned. -/
theorem c9_witness :
    process_with_retry
      (fun i => if i = 0 then handle_response ⟨200, none, "not json"⟩
                else .ok .jnull) 3 =
      ⟨2, [1], .ok .jnull⟩ :=
  c9_protocol_error_retryable "not json" .jnull rfl

/-- Claim C10: called with `max_retries ≤ 0` the loop body never runs,
no API call is attempted, and the result is the trailing
`Max retries exceeded` error; for every `max_retries ≥ 1` that trailing
raise is unreachable — the result is always the outcome of one of the
attempted calls. -/
theorem c10_loop_bounds (call : Nat → Except String JValue) (m : Int) :
    (m ≤ 0 → process_with_retry call m = ⟨0, [], .error "Max retries exceeded"⟩) ∧
    (1 ≤ m → ∃ i : Nat, (i : Int) < m ∧
      (process_with_retry call m).result = call i) := by
  constructor
  · intro hm
    unfold process_with_retry
    rw [Int.toNat_of_nonpos hm]
    rfl
  · intro hm
    have h1 : 1 ≤ m.toNat := by omega
    obtain ⟨i, _, hi2, hi3⟩ :=
      retryList_result_attempt call m.toNat m.toNat 0 h1 (by omega)
    refine ⟨i, by omega, ?_⟩
    unfold process_with_retry
    rw [List.range_eq_range']
    exact hi3

/-- Witness for C10: with `max_retries = 0` no attempt is made and the
trailing error is raised; with `max_retries = 3` the result is the
outcome of an attempted call. -/
theorem c10_witness :
    process_with_retry callOk 0 = ⟨0, [], .error "Max retries exceeded"⟩ ∧
    (∃ i : Nat, (i : Int) < 3 ∧ (process_with_retry callOk 3).result = callOk i) :=
  ⟨(c10_loop_bounds callOk 0).1 (by decide), (c10_loop_bounds callOk 3).2 (by decide)⟩

